import Mathlib

/-!
Shallow embedding of the EduShare file-sharing API (src/api/index.js):
an Express service exposing six routes over two external stores — a
Cosmos-style document store partitioned by the visibility field, and an
Azure-style blob store.  Pure code is translated directly; the
environment inputs of a request (the generated id, the clock readings
taken by new Date(), and the outcomes of the external storage calls)
are explicit parameters, and the two stores are explicit values
threaded through each handler.  ISO-8601 timestamps are represented by
naturals, order-isomorphically: the code only ever creates them from
the current clock and compares them.
-/

namespace EduShare

/-- Value of the JavaScript expression a || d for a possibly absent
string a: undefined, null and the empty string are falsy and fall
through to the default d. -/
def jsOr (a : Option String) (d : String) : String :=
  match a with
  | none => d
  | some s => if s = "" then d else s

/-- Value of the JavaScript expression a || b where both operands are
possibly absent strings (used for body.visibility || query.visibility). -/
def jsOrOpt (a b : Option String) : Option String :=
  match a with
  | none => b
  | some s => if s = "" then b else some s

/-- Whitespace in the sense of the trim and regex replacements the code
performs (the core of the JavaScript whitespace class). -/
def isSpaceJS (c : Char) : Bool :=
  c = ' ' || c = '\t' || c = '\n' || c = '\r' || c = '\x0b' || c = '\x0c'

/-- String.prototype.trim over the modelled whitespace class. -/
def trimJS (s : String) : String :=
  String.mk (((s.data.dropWhile isSpaceJS).reverse.dropWhile isSpaceJS).reverse)

/-- Left-to-right pass of String.prototype.replace with the global
pattern "one or more whitespace characters" and replacement underscore:
each maximal whitespace run collapses to a single underscore.  The flag
records whether the previous character was whitespace, i.e. whether a
run is in progress. -/
def collapseWsAux (prevWs : Bool) : List Char → List Char
  | [] => []
  | c :: cs =>
    if isSpaceJS c then
      if prevWs then collapseWsAux true cs
      else '_' :: collapseWsAux true cs
    else c :: collapseWsAux false cs

/-- Whitespace sanitisation applied to blobName (replace of the global
whitespace-run pattern by an underscore). -/
def replaceWs (s : String) : String := String.mk (collapseWsAux false s.data)

/-- String.prototype.toLowerCase, modelled character by character; this
agrees with the JavaScript function on every input whose lowering could
equal one of the enumeration words the code compares against. -/
def toLowerJS (s : String) : String := String.mk (s.data.map Char.toLower)

/-- safeVisibility from src/api/index.js lines 46-50: default falsy
input to private, lowercase, and fall back to private for any value
outside the enumeration. -/
def safeVisibility (v : Option String) : String :=
  let vis := toLowerJS (jsOr v "private")
  if vis = "public" ∨ vis = "private" then vis else "private"

/-- Metadata document exactly as constructed by the upload handler.
Timestamps are naturals standing for ISO-8601 instants. -/
structure Asset where
  id : String
  visibility : String
  title : String
  fileName : String
  mimeType : String
  size : Nat
  blobName : String
  blobUrl : String
  createdAt : Nat
  updatedAt : Nat
deriving Repr, DecidableEq

/-- Key comparison of the document store: point operations address a
document by id together with the partition key, which is visibility. -/
def keyMatch (id vis : String) (a : Asset) : Bool :=
  a.id == id && a.visibility == vis

/-- Point lookup, container.item(id, vis).read(): the resource when a
document exists at exactly these coordinates, none otherwise. -/
def pointRead (meta : List Asset) (id vis : String) : Option Asset :=
  meta.find? (keyMatch id vis)

/-- Point delete, container.item(id, vis).delete(). -/
def metaDelete (meta : List Asset) (id vis : String) : List Asset :=
  meta.filter (fun a => !(keyMatch id vis a))

/-- Point replace, container.item(id, vis).replace(doc). -/
def metaReplace (meta : List Asset) (id vis : String) (doc : Asset) : List Asset :=
  meta.map (fun a => if keyMatch id vis a then doc else a)

/-- Fields of the multer file object that the handlers read. -/
structure UploadedFile where
  originalname : String
  mimetype : String
  size : Nat
deriving Repr, DecidableEq

/-- JSON bodies the routes can answer with. -/
inductive RespBody where
  | error (msg : String)
  | asset (a : Asset)
  | assets (l : List Asset)
  | deleted (id : String)
deriving Repr, DecidableEq

/-- Document construction of POST /files (lines 60-87): visibility and
title normalisation, blobName derivation and the document literal.
genId is the value returned by makeId(), t1 and t2 are the two
successive new Date() readings taken for createdAt and updatedAt, and
containerUrl is the address of the blob container, so that the url of
the block blob is containerUrl followed by a slash and the blob name. -/
def mkDoc (bodyTitle bodyVisibility : Option String) (f : UploadedFile)
    (genId : String) (t1 t2 : Nat) (containerUrl : String) : Asset :=
  let visibility := safeVisibility bodyVisibility
  let title := trimJS (jsOr bodyTitle (jsOr (some f.originalname) "Untitled"))
  let blobName := replaceWs (genId ++ "-" ++ f.originalname)
  { id := genId
    visibility := visibility
    title := title
    fileName := f.originalname
    mimeType := f.mimetype
    size := f.size
    blobName := blobName
    blobUrl := containerUrl ++ "/" ++ blobName
    createdAt := t1
    updatedAt := t2 }

/-- Outcome of POST /files: HTTP status, JSON body, both stores after
the request. -/
structure PostOutcome where
  status : Nat
  body : RespBody
  meta : List Asset
  blobs : List String
deriving Repr, DecidableEq

/-- POST /files handler (success path of the storage calls; a thrown
storage error lands in the catch-all and maps to 500).  A missing file
part is answered 400 before any write happens. -/
def postFiles (meta : List Asset) (blobs : List String)
    (bodyTitle bodyVisibility : Option String) (file : Option UploadedFile)
    (genId : String) (t1 t2 : Nat) (containerUrl : String) : PostOutcome :=
  match file with
  | none => ⟨400, RespBody.error "Missing file", meta, blobs⟩
  | some f =>
    let doc := mkDoc bodyTitle bodyVisibility f genId t1 t2 containerUrl
    ⟨201, RespBody.asset doc, doc :: meta, doc.blobName :: blobs⟩

/-- Truthiness test of req.query.visibility in GET /files: an absent or
empty parameter means no filter, otherwise the filter is the normalised
value. -/
def visFilter (q : Option String) : Option String :=
  match q with
  | none => none
  | some s => if s = "" then none else some (safeVisibility (some s))

/-- ORDER BY c.createdAt DESC as a comparison. -/
def createdDesc (a b : Asset) : Bool := b.createdAt ≤ a.createdAt

/-- GET /files handler: the JSON array returned with HTTP 200 on the
success path.  The store query is SELECT * with an optional visibility
equality filter, ordered by createdAt descending. -/
def listFiles (meta : List Asset) (q : Option String) : List Asset :=
  match visFilter q with
  | some v => (meta.filter (fun a => a.visibility == v)).mergeSort createdDesc
  | none => meta.mergeSort createdDesc

/-- GET /files/:id handler: point read under the normalised visibility,
404 exactly when that partition holds no document with this id. -/
def getFile (meta : List Asset) (id : String) (queryVisibility : Option String) :
    Nat × RespBody :=
  let visibility := safeVisibility queryVisibility
  match pointRead meta id visibility with
  | none => (404, RespBody.error "Not found")
  | some r => (200, RespBody.asset r)

/-- Document produced by the PUT mutation (lines 148-149): the title is
overwritten when the trimmed new title is non-empty, and updatedAt is
refreshed to the clock reading now. -/
def putUpdated (r : Asset) (bodyTitle : Option String) (now : Nat) : Asset :=
  let newTitle := trimJS (jsOr bodyTitle "")
  { r with
    title := if newTitle ≠ "" then newTitle else r.title
    updatedAt := now }

/-- Outcome of PUT /files/:id. -/
structure PutOutcome where
  status : Nat
  body : RespBody
  meta : List Asset
deriving Repr, DecidableEq

/-- PUT /files/:id handler (success path of the storage calls): derive
visibility from body-or-query, guard on empty visibility (dead, since
safeVisibility never returns the empty string), point read, mutate, and
replace at the same coordinates.  now is the new Date() reading. -/
def putFiles (meta : List Asset) (id : String)
    (bodyVisibility queryVisibility bodyTitle : Option String) (now : Nat) :
    PutOutcome :=
  let visibility := safeVisibility (jsOrOpt bodyVisibility queryVisibility)
  if visibility = "" then ⟨400, RespBody.error "visibility required", meta⟩
  else
    match pointRead meta id visibility with
    | none => ⟨404, RespBody.error "Not found", meta⟩
    | some r =>
      let updated := putUpdated r bodyTitle now
      ⟨200, RespBody.asset updated, metaReplace meta id visibility updated⟩

/-- Outcome of DELETE /files/:id: status, body, both stores, and the
list of blob names on which deleteIfExists was invoked. -/
structure DeleteOutcome where
  status : Nat
  body : RespBody
  meta : List Asset
  blobs : List String
  blobCalls : List String
deriving Repr, DecidableEq

/-- DELETE /files/:id handler.  cosmosOk says whether the metadata
delete call returns (false means it throws, landing in the catch-all:
500 with nothing deleted); blobOk says whether deleteIfExists returns
without throwing — deleteIfExists does not throw on an already-missing
blob, so false means a storage error, which the surrounding try/catch
also turns into a 500 even though the metadata document is already
gone.  errMsg is the message of the thrown error. -/
def deleteFiles (meta : List Asset) (blobs : List String) (id : String)
    (queryVisibility : Option String) (cosmosOk blobOk : Bool) (errMsg : String) :
    DeleteOutcome :=
  let visibility := safeVisibility queryVisibility
  if visibility = "" then
    ⟨400, RespBody.error "visibility required", meta, blobs, []⟩
  else
    match pointRead meta id visibility with
    | none => ⟨404, RespBody.error "Not found", meta, blobs, []⟩
    | some r =>
      if cosmosOk then
        let meta1 := metaDelete meta id visibility
        if r.blobName ≠ "" then
          if blobOk then
            ⟨200, RespBody.deleted id, meta1, blobs.erase r.blobName, [r.blobName]⟩
          else
            ⟨500, RespBody.error errMsg, meta1, blobs, [r.blobName]⟩
        else
          ⟨200, RespBody.deleted id, meta1, blobs, []⟩
      else
        ⟨500, RespBody.error errMsg, meta, blobs, []⟩

/- Helper lemmas shared by the claim theorems. -/

theorem safeVisibility_mem (v : Option String) :
    safeVisibility v = "public" ∨ safeVisibility v = "private" := by
  simp only [safeVisibility]
  split
  · next h => exact h
  · right; rfl

theorem safeVisibility_ne_empty (v : Option String) : safeVisibility v ≠ "" := by
  rcases safeVisibility_mem v with h | h <;> rw [h] <;> decide

theorem safeVisibility_idem (v : Option String) :
    safeVisibility (some (safeVisibility v)) = safeVisibility v := by
  rcases safeVisibility_mem v with h | h <;> rw [h] <;> decide

theorem safeVisibility_jsOrOpt_norm (u : Option String) :
    safeVisibility (jsOrOpt (some (safeVisibility u)) none) = safeVisibility u := by
  have hne := safeVisibility_ne_empty u
  simp only [jsOrOpt, if_neg hne]
  exact safeVisibility_idem u

theorem collapseWsAux_id (l : List Char) :
    ∀ b : Bool, (∀ c ∈ l, isSpaceJS c = false) → collapseWsAux b l = l := by
  induction l with
  | nil => intro b _; rfl
  | cons c cs ih =>
    intro b h
    have hc : isSpaceJS c = false := h c (List.mem_cons_self c cs)
    have hrest : ∀ d ∈ cs, isSpaceJS d = false :=
      fun d hd => h d (List.mem_cons_of_mem c hd)
    simp [collapseWsAux, hc, ih false hrest]

theorem mergeSort_createdDesc_sorted (l : List Asset) :
    (l.mergeSort createdDesc).Sorted (fun a b => b.createdAt ≤ a.createdAt) := by
  have htrans : ∀ a b c : Asset, createdDesc a b = true → createdDesc b c = true →
      createdDesc a c = true := by
    intro a b c hab hbc
    simp only [createdDesc, decide_eq_true_eq] at hab hbc ⊢
    omega
  have htotal : ∀ a b : Asset, (createdDesc a b || createdDesc b a) = true := by
    intro a b
    simp only [createdDesc, Bool.or_eq_true, decide_eq_true_eq]
    omega
  have h := @List.sorted_mergeSort Asset createdDesc htrans htotal l
  exact h.imp (fun hab => by
    simpa only [createdDesc, decide_eq_true_eq] using hab)

theorem mem_mergeSort_createdDesc (a : Asset) (l : List Asset) :
    a ∈ l.mergeSort createdDesc ↔ a ∈ l :=
  (List.mergeSort_perm l createdDesc).mem_iff

theorem keyMatch_iff (id vis : String) (a : Asset) :
    keyMatch id vis a = true ↔ a.id = id ∧ a.visibility = vis := by
  simp [keyMatch]

theorem putFiles_congr (meta : List Asset) (id : String)
    (bv qv bv2 qv2 bt : Option String) (now : Nat)
    (h : safeVisibility (jsOrOpt bv qv) = safeVisibility (jsOrOpt bv2 qv2)) :
    putFiles meta id bv qv bt now = putFiles meta id bv2 qv2 bt now := by
  simp only [putFiles]
  rw [h]

theorem deleteFiles_congr (meta : List Asset) (blobs : List String) (id : String)
    (qv qv2 : Option String) (cOk bOk : Bool) (errMsg : String)
    (h : safeVisibility qv = safeVisibility qv2) :
    deleteFiles meta blobs id qv cOk bOk errMsg
      = deleteFiles meta blobs id qv2 cOk bOk errMsg := by
  simp only [deleteFiles]
  rw [h]

theorem getFile_congr (meta : List Asset) (id : String) (qv qv2 : Option String)
    (h : safeVisibility qv = safeVisibility qv2) :
    getFile meta id qv = getFile meta id qv2 := by
  simp only [getFile]
  rw [h]

/-- C5: visibility normalisation always lands in the enumeration,
defaults to private when the value is absent or invalid, and the same
rule governs every route: create stores the normalised value; read,
update and delete behave identically when the raw input is replaced by
its normalisation; and a filtered list filters by the normalised value. -/
theorem safeVisibility_rule :
    (∀ v, safeVisibility v = "public" ∨ safeVisibility v = "private")
    ∧ safeVisibility none = "private"
    ∧ (∀ s, toLowerJS s ≠ "public" → toLowerJS s ≠ "private" →
        safeVisibility (some s) = "private")
    ∧ (∀ bt v f g t1 t2 url,
        (mkDoc bt v f g t1 t2 url).visibility = safeVisibility v)
    ∧ (∀ meta id v, getFile meta id v = getFile meta id (some (safeVisibility v)))
    ∧ (∀ meta id bv qv bt now, putFiles meta id bv qv bt now
        = putFiles meta id (some (safeVisibility (jsOrOpt bv qv))) none bt now)
    ∧ (∀ meta blobs id v cOk bOk e, deleteFiles meta blobs id v cOk bOk e
        = deleteFiles meta blobs id (some (safeVisibility v)) cOk bOk e)
    ∧ (∀ meta s, s ≠ "" → listFiles meta (some s)
        = (meta.filter
            (fun a => a.visibility == safeVisibility (some s))).mergeSort createdDesc) := by
  refine ⟨safeVisibility_mem, rfl, ?_, ?_, ?_, ?_, ?_, ?_⟩
  · intro s h1 h2
    by_cases hs : s = ""
    · subst hs; rfl
    · simp only [safeVisibility, jsOr, if_neg hs]
      rw [if_neg (fun hcon => hcon.elim h1 h2)]
  · intro bt v f g t1 t2 url
    rfl
  · intro meta id v
    exact getFile_congr meta id v (some (safeVisibility v)) (safeVisibility_idem v).symm
  · intro meta id bv qv bt now
    exact putFiles_congr meta id bv qv (some (safeVisibility (jsOrOpt bv qv))) none bt now
      (safeVisibility_jsOrOpt_norm (jsOrOpt bv qv)).symm
  · intro meta blobs id v cOk bOk e
    exact deleteFiles_congr meta blobs id v (some (safeVisibility v)) cOk bOk e
      (safeVisibility_idem v).symm
  · intro meta s hs
    simp only [listFiles, visFilter, if_neg hs]

/-- C5 witness: the invalid value BOGUS normalises to private, and the
filtered list route applies the rule on a concrete store. -/
theorem safeVisibility_rule_witness :
    safeVisibility (some "BOGUS") = "private"
    ∧ listFiles [⟨"a", "public", "T", "n", "m", 1, "b", "u", 3, 3⟩] (some "BOGUS")
        = (([⟨"a", "public", "T", "n", "m", 1, "b", "u", 3, 3⟩] : List Asset).filter
            (fun a => a.visibility == safeVisibility (some "BOGUS"))).mergeSort createdDesc :=
  ⟨safeVisibility_rule.2.2.1 "BOGUS" (by decide) (by decide),
   safeVisibility_rule.2.2.2.2.2.2.2
     [⟨"a", "public", "T", "n", "m", 1, "b", "u", 3, 3⟩] "BOGUS" (by decide)⟩

/-- C7: a point read answers 200 with the full record exactly when a
document exists at the exact id-visibility pair; when every document
with the requested id lives only under the other visibility the
response is 404. -/
theorem getFile_point_read (meta : List Asset) (id : String) (qvis : Option String) :
    ((∀ a ∈ meta, ¬(a.id = id ∧ a.visibility = safeVisibility qvis)) →
        getFile meta id qvis = (404, RespBody.error "Not found"))
    ∧ (∀ a, pointRead meta id (safeVisibility qvis) = some a →
        getFile meta id qvis = (200, RespBody.asset a))
    ∧ ((getFile meta id qvis).1 = 200 →
        ∃ a ∈ meta, a.id = id ∧ a.visibility = safeVisibility qvis
          ∧ (getFile meta id qvis).2 = RespBody.asset a) := by
  refine ⟨?_, ?_, ?_⟩
  · intro h
    have hnone : pointRead meta id (safeVisibility qvis) = none := by
      simp only [pointRead]
      apply List.find?_eq_none.mpr
      intro a ha
      rw [keyMatch_iff]
      exact h a ha
    simp [getFile, hnone]
  · intro a ha
    simp [getFile, ha]
  · intro h200
    cases hp : pointRead meta id (safeVisibility qvis) with
    | none => simp [getFile, hp] at h200
    | some a =>
      have hp2 : meta.find? (keyMatch id (safeVisibility qvis)) = some a := hp
      have hmem := List.mem_of_find?_eq_some hp2
      have hkey := List.find?_some hp2
      rw [keyMatch_iff] at hkey
      exact ⟨a, hmem, hkey.1, hkey.2, by simp [getFile, hp]⟩

/-- C7 witness: an asset stored under public is not found by a read
whose visibility parameter is absent and therefore defaults to private. -/
theorem getFile_point_read_witness :
    getFile [⟨"x", "public", "T", "n", "m", 1, "b", "u", 0, 0⟩] "x" none
      = (404, RespBody.error "Not found") :=
  (getFile_point_read [⟨"x", "public", "T", "n", "m", 1, "b", "u", 0, 0⟩] "x" none).1
    (by decide)

/-- C10: a delete whose point lookup finds nothing is answered 404 and
leaves both stores untouched, with no deleteIfExists call made. -/
theorem deleteFiles_not_found (meta : List Asset) (blobs : List String)
    (id : String) (qv : Option String) (cOk bOk : Bool) (errMsg : String)
    (h : pointRead meta id (safeVisibility qv) = none) :
    deleteFiles meta blobs id qv cOk bOk errMsg
      = ⟨404, RespBody.error "Not found", meta, blobs, []⟩ := by
  simp only [deleteFiles]
  rw [if_neg (safeVisibility_ne_empty qv), h]

/-- C10 witness: deleting an id absent from the store under the default
visibility. -/
theorem deleteFiles_not_found_witness :
    deleteFiles [] [] "x" none true true "e"
      = ⟨404, RespBody.error "Not found", [], [], []⟩ :=
  deleteFiles_not_found [] [] "x" none true true "e" (by decide)

/-- C2 (amended): visibility can always be determined — safeVisibility
never returns the empty string — so the visibility-required 400
branches of the update and delete handlers are unreachable and no PUT
or DELETE request is answered 400; a missing or malformed visibility is
silently defaulted to private instead. -/
theorem put_delete_never_400 (meta : List Asset) (blobs : List String)
    (id : String) (bv qv bt : Option String) (now : Nat)
    (cOk bOk : Bool) (errMsg : String) :
    (putFiles meta id bv qv bt now).status ≠ 400
    ∧ (deleteFiles meta blobs id qv cOk bOk errMsg).status ≠ 400 := by
  constructor
  · simp only [putFiles]
    rw [if_neg (safeVisibility_ne_empty (jsOrOpt bv qv))]
    cases hp : pointRead meta id (safeVisibility (jsOrOpt bv qv)) <;> simp
  · simp only [deleteFiles]
    rw [if_neg (safeVisibility_ne_empty qv)]
    cases hp : pointRead meta id (safeVisibility qv)
    · simp
    · simp only []
      split_ifs <;> simp

/-- C2 witness: a concrete update and delete with every optional input
absent are not answered 400. -/
theorem put_delete_never_400_witness :
    (putFiles [] "x" none none none 0).status ≠ 400 :=
  (put_delete_never_400 [] [] "x" none none none 0 true true "e").1

/-- C2 counterexample: an update and a delete with visibility entirely
absent are processed under the private default and answered 404, not
the claimed 400. -/
theorem put_delete_missing_visibility_cex :
    (putFiles [] "x" none none none 0).status = 404
    ∧ (deleteFiles [] [] "x" none true true "e").status = 404 := by
  decide

/-- C3 (amended): every valid upload is answered 201 with the
constructed document; its id is the generated id (non-empty whenever
makeId returned a non-empty value, which both makeId branches produce),
its visibility is in the enumeration, and createdAt and updatedAt are
the two successive clock readings taken while building the document —
equal exactly when the clock did not advance between the two reads. -/
theorem postFiles_valid_upload (meta : List Asset) (blobs : List String)
    (bt v : Option String) (f : UploadedFile) (g : String) (t1 t2 : Nat)
    (url : String) (hg : g ≠ "") :
    (postFiles meta blobs bt v (some f) g t1 t2 url).status = 201
    ∧ (postFiles meta blobs bt v (some f) g t1 t2 url).body
        = RespBody.asset (mkDoc bt v f g t1 t2 url)
    ∧ (mkDoc bt v f g t1 t2 url).id ≠ ""
    ∧ ((mkDoc bt v f g t1 t2 url).visibility = "public"
        ∨ (mkDoc bt v f g t1 t2 url).visibility = "private")
    ∧ (mkDoc bt v f g t1 t2 url).createdAt = t1
    ∧ (mkDoc bt v f g t1 t2 url).updatedAt = t2
    ∧ (t1 = t2 → (mkDoc bt v f g t1 t2 url).createdAt
        = (mkDoc bt v f g t1 t2 url).updatedAt) := by
  refine ⟨rfl, rfl, hg, safeVisibility_mem v, rfl, rfl, ?_⟩
  intro h
  show t1 = t2
  exact h

/-- C3 witness: a concrete upload whose two clock readings coincide. -/
theorem postFiles_valid_upload_witness :
    (postFiles [] [] none none (some ⟨"a.txt", "text/plain", 1⟩) "u1" 7 7 "u").status
      = 201 :=
  (postFiles_valid_upload [] [] none none ⟨"a.txt", "text/plain", 1⟩ "u1" 7 7 "u"
    (by decide)).1

/-- C3 counterexample: a valid upload whose two new Date() readings
differ by one tick is stored and returned with createdAt different from
updatedAt, refuting the unconditional equality. -/
theorem post_created_ne_updated_cex :
    (postFiles [] [] none none (some ⟨"notes.pdf", "application/pdf", 3⟩)
        "u1" 0 1 "https://host/uploads").status = 201
    ∧ (postFiles [] [] none none (some ⟨"notes.pdf", "application/pdf", 3⟩)
        "u1" 0 1 "https://host/uploads").body
      = RespBody.asset (mkDoc none none ⟨"notes.pdf", "application/pdf", 3⟩
          "u1" 0 1 "https://host/uploads")
    ∧ (mkDoc none none ⟨"notes.pdf", "application/pdf", 3⟩
        "u1" 0 1 "https://host/uploads").createdAt
      ≠ (mkDoc none none ⟨"notes.pdf", "application/pdf", 3⟩
          "u1" 0 1 "https://host/uploads").updatedAt := by
  decide

/-- C4 (amended): the stored title is the trim of the supplied title
when that is a non-empty string, else the trim of the original filename
when that is non-empty, else Untitled; the trim is applied after the
default selection, so a whitespace-only supplied title is stored as the
empty string instead of falling through to a default. -/
theorem mkDoc_title_rule (bt v : Option String) (f : UploadedFile)
    (g : String) (t1 t2 : Nat) (url : String) :
    (∀ s, bt = some s → s ≠ "" → (mkDoc bt v f g t1 t2 url).title = trimJS s)
    ∧ ((bt = none ∨ bt = some "") → f.originalname ≠ "" →
        (mkDoc bt v f g t1 t2 url).title = trimJS f.originalname)
    ∧ ((bt = none ∨ bt = some "") → f.originalname = "" →
        (mkDoc bt v f g t1 t2 url).title = "Untitled") := by
  refine ⟨?_, ?_, ?_⟩
  · intro s hbt hs
    subst hbt
    show trimJS (jsOr (some s) (jsOr (some f.originalname) "Untitled")) = trimJS s
    have h1 : jsOr (some s) (jsOr (some f.originalname) "Untitled") = s := by
      simp [jsOr, hs]
    rw [h1]
  · intro hbt ho
    have h1 : jsOr bt (jsOr (some f.originalname) "Untitled") = f.originalname := by
      rcases hbt with hb | hb <;> subst hb <;> simp [jsOr, ho]
    show trimJS (jsOr bt (jsOr (some f.originalname) "Untitled")) = trimJS f.originalname
    rw [h1]
  · intro hbt ho
    have h1 : jsOr bt (jsOr (some f.originalname) "Untitled") = "Untitled" := by
      rcases hbt with hb | hb <;> subst hb <;> simp [jsOr, ho]
    show trimJS (jsOr bt (jsOr (some f.originalname) "Untitled")) = "Untitled"
    rw [h1]
    decide

/-- C4 witness: a supplied padded title is stored trimmed. -/
theorem mkDoc_title_rule_witness :
    (mkDoc (some "  Hi  ") none ⟨"n.pdf", "application/pdf", 1⟩ "g" 0 0 "u").title
      = trimJS "  Hi  " :=
  (mkDoc_title_rule (some "  Hi  ") none ⟨"n.pdf", "application/pdf", 1⟩ "g" 0 0 "u").1
    "  Hi  " rfl (by decide)

/-- C4 counterexample: supplying a whitespace-only title stores the
empty title, refuting never-empty. -/
theorem mkDoc_title_empty_cex :
    (mkDoc (some " ") none ⟨"notes.pdf", "application/pdf", 3⟩ "u1" 0 0 "u").title
      = "" := by
  decide

/-- C9: blobName is the concatenation of the generated id, a hyphen and
the original filename, sanitised by replacing each whitespace run with
an underscore; in particular it is exactly the concatenation whenever
the id and the filename contain no whitespace. -/
theorem mkDoc_blobName_rule (bt v : Option String) (f : UploadedFile)
    (g : String) (t1 t2 : Nat) (url : String) :
    (mkDoc bt v f g t1 t2 url).blobName = replaceWs (g ++ "-" ++ f.originalname)
    ∧ ((∀ c ∈ (g ++ "-" ++ f.originalname).data, isSpaceJS c = false) →
        (mkDoc bt v f g t1 t2 url).blobName = g ++ "-" ++ f.originalname) := by
  refine ⟨rfl, ?_⟩
  intro h
  show String.mk (collapseWsAux false (g ++ "-" ++ f.originalname).data)
      = g ++ "-" ++ f.originalname
  rw [collapseWsAux_id _ false h]

/-- C9 witness: a whitespace-free uuid and filename pass through the
sanitisation unchanged, giving the uuid-hyphen-filename pattern. -/
theorem mkDoc_blobName_rule_witness :
    (mkDoc none none ⟨"notes.pdf", "application/pdf", 3⟩
        "123e4567-e89b" 0 0 "u").blobName
      = "123e4567-e89b" ++ "-" ++ "notes.pdf" :=
  (mkDoc_blobName_rule none none ⟨"notes.pdf", "application/pdf", 3⟩
    "123e4567-e89b" 0 0 "u").2 (by decide)

/-- C8: with a visibility filter the list route returns exactly the
assets whose visibility equals the normalised filter value, ordered by
createdAt descending; with no filter it returns the union of the public
and private partitions in the same descending order. -/
theorem listFiles_spec (meta : List Asset) (s : String) (hs : s ≠ "")
    (hvis : ∀ a ∈ meta, a.visibility = "public" ∨ a.visibility = "private") :
    (∀ a, a ∈ listFiles meta (some s)
        ↔ a ∈ meta ∧ a.visibility = safeVisibility (some s))
    ∧ (listFiles meta (some s)).Sorted (fun a b => b.createdAt ≤ a.createdAt)
    ∧ (∀ a, a ∈ listFiles meta none
        ↔ (a ∈ meta ∧ a.visibility = "public")
          ∨ (a ∈ meta ∧ a.visibility = "private"))
    ∧ (listFiles meta none).Sorted (fun a b => b.createdAt ≤ a.createdAt) := by
  have hfil : listFiles meta (some s)
      = (meta.filter
          (fun a => a.visibility == safeVisibility (some s))).mergeSort createdDesc := by
    simp only [listFiles, visFilter]
    rw [if_neg hs]
  have hnone : listFiles meta none = meta.mergeSort createdDesc := rfl
  refine ⟨?_, ?_, ?_, ?_⟩
  · intro a
    rw [hfil, mem_mergeSort_createdDesc, List.mem_filter]
    simp
  · rw [hfil]
    exact mergeSort_createdDesc_sorted _
  · intro a
    rw [hnone, mem_mergeSort_createdDesc]
    constructor
    · intro ha
      rcases hvis a ha with h | h
      · exact Or.inl ⟨ha, h⟩
      · exact Or.inr ⟨ha, h⟩
    · intro h
      rcases h with ⟨ha, h2⟩ | ⟨ha, h2⟩ <;> exact ha
  · rw [hnone]
    exact mergeSort_createdDesc_sorted _

/-- C8 witness: the filtered listing of a concrete two-partition store
is sorted by createdAt descending. -/
theorem listFiles_spec_witness :
    (listFiles [⟨"a", "public", "TA", "fa", "m", 1, "ba", "ua", 10, 10⟩,
        ⟨"b", "private", "TB", "fb", "m", 2, "bb", "ub", 20, 20⟩]
      (some "public")).Sorted (fun a b => b.createdAt ≤ a.createdAt) :=
  (listFiles_spec [⟨"a", "public", "TA", "fa", "m", 1, "ba", "ua", 10, 10⟩,
      ⟨"b", "private", "TB", "fb", "m", 2, "bb", "ub", 20, 20⟩]
    "public" (by decide) (by decide)).2.1

/-- C6 (amended): a successful title update answers 200 with the
replaced document: the title is overwritten exactly when a non-empty
trimmed title was supplied and kept otherwise; updatedAt is set to the
clock reading of the request, hence advances strictly whenever that
reading is strictly later than the stored value; every other field is
unchanged and the document is replaced at the same id-visibility
coordinates — the found document carries exactly the coordinates of the
request, and every document at a different key survives the replacement
untouched. -/
theorem putFiles_update_frame (meta : List Asset) (id : String)
    (bv qv bt : Option String) (now : Nat) (r : Asset)
    (h : pointRead meta id (safeVisibility (jsOrOpt bv qv)) = some r) :
    putFiles meta id bv qv bt now
      = ⟨200, RespBody.asset (putUpdated r bt now),
         metaReplace meta id (safeVisibility (jsOrOpt bv qv)) (putUpdated r bt now)⟩
    ∧ (putUpdated r bt now).id = r.id
    ∧ (putUpdated r bt now).visibility = r.visibility
    ∧ (putUpdated r bt now).fileName = r.fileName
    ∧ (putUpdated r bt now).mimeType = r.mimeType
    ∧ (putUpdated r bt now).size = r.size
    ∧ (putUpdated r bt now).blobName = r.blobName
    ∧ (putUpdated r bt now).blobUrl = r.blobUrl
    ∧ (putUpdated r bt now).createdAt = r.createdAt
    ∧ (putUpdated r bt now).updatedAt = now
    ∧ (trimJS (jsOr bt "") ≠ "" → (putUpdated r bt now).title = trimJS (jsOr bt ""))
    ∧ (trimJS (jsOr bt "") = "" → (putUpdated r bt now).title = r.title)
    ∧ (r.updatedAt < now → r.updatedAt < (putUpdated r bt now).updatedAt)
    ∧ r.id = id
    ∧ r.visibility = safeVisibility (jsOrOpt bv qv)
    ∧ (∀ a ∈ meta, keyMatch id (safeVisibility (jsOrOpt bv qv)) a = false →
        a ∈ (putFiles meta id bv qv bt now).meta) := by
  have hp2 : meta.find? (keyMatch id (safeVisibility (jsOrOpt bv qv))) = some r := h
  have hkey := List.find?_some hp2
  rw [keyMatch_iff] at hkey
  refine ⟨?_, rfl, rfl, rfl, rfl, rfl, rfl, rfl, rfl, rfl, ?_, ?_, ?_,
    hkey.1, hkey.2, ?_⟩
  · simp only [putFiles]
    rw [if_neg (safeVisibility_ne_empty (jsOrOpt bv qv)), h]
  · intro hnt
    simp [putUpdated, hnt]
  · intro hnt
    simp [putUpdated, hnt]
  · intro hlt
    exact hlt
  · intro a ha hk
    have hmeta : (putFiles meta id bv qv bt now).meta
        = metaReplace meta id (safeVisibility (jsOrOpt bv qv)) (putUpdated r bt now) := by
      simp only [putFiles]
      rw [if_neg (safeVisibility_ne_empty (jsOrOpt bv qv)), h]
    rw [hmeta]
    simp only [metaReplace]
    refine List.mem_map.mpr ⟨a, ha, ?_⟩
    simp [hk]

/-- C6 witness: a concrete successful update at a later clock reading. -/
theorem putFiles_update_frame_witness :
    putFiles [⟨"x", "private", "T", "n", "m", 1, "b", "u", 0, 3⟩] "x"
        none none (some "New") 9
      = ⟨200, RespBody.asset
           (putUpdated ⟨"x", "private", "T", "n", "m", 1, "b", "u", 0, 3⟩ (some "New") 9),
         metaReplace [⟨"x", "private", "T", "n", "m", 1, "b", "u", 0, 3⟩] "x"
           (safeVisibility (jsOrOpt none none))
           (putUpdated ⟨"x", "private", "T", "n", "m", 1, "b", "u", 0, 3⟩ (some "New") 9)⟩ :=
  (putFiles_update_frame [⟨"x", "private", "T", "n", "m", 1, "b", "u", 0, 3⟩] "x"
    none none (some "New") 9 ⟨"x", "private", "T", "n", "m", 1, "b", "u", 0, 3⟩
    (by decide)).1

/-- C6 counterexample: a successful title update performed at a clock
reading equal to the stored updatedAt leaves updatedAt unchanged, so
the advance of updatedAt is not strict. -/
theorem put_updatedAt_not_strict_cex :
    (putFiles [⟨"x", "public", "Old", "n.pdf", "application/pdf", 3, "bn", "u", 2, 5⟩]
        "x" (some "public") none (some "New") 5).status = 200
    ∧ (putFiles [⟨"x", "public", "Old", "n.pdf", "application/pdf", 3, "bn", "u", 2, 5⟩]
        "x" (some "public") none (some "New") 5).body
      = RespBody.asset ⟨"x", "public", "New", "n.pdf", "application/pdf", 3, "bn", "u", 2, 5⟩
    ∧ ¬((⟨"x", "public", "Old", "n.pdf", "application/pdf", 3, "bn", "u", 2, 5⟩ : Asset).updatedAt
        < (⟨"x", "public", "New", "n.pdf", "application/pdf", 3, "bn", "u", 2, 5⟩ : Asset).updatedAt) := by
  decide

/-- C1 (amended): once the metadata delete has succeeded the handler
still awaits the blob delete inside the same try/catch, so the response
is 200 with the deleted-true-id body exactly when the blob delete
(attempted when a blobName is recorded) does not throw; a blob-delete
failure surfaces to the caller as a 500 even though the metadata
document is already gone. -/
theorem deleteFiles_blob_outcome (meta : List Asset) (blobs : List String)
    (id : String) (qv : Option String) (bOk : Bool) (errMsg : String) (r : Asset)
    (h : pointRead meta id (safeVisibility qv) = some r) :
    (deleteFiles meta blobs id qv true bOk errMsg).meta
        = metaDelete meta id (safeVisibility qv)
    ∧ (r.blobName = "" → deleteFiles meta blobs id qv true bOk errMsg
        = ⟨200, RespBody.deleted id, metaDelete meta id (safeVisibility qv), blobs, []⟩)
    ∧ (r.blobName ≠ "" → bOk = true → deleteFiles meta blobs id qv true bOk errMsg
        = ⟨200, RespBody.deleted id, metaDelete meta id (safeVisibility qv),
           blobs.erase r.blobName, [r.blobName]⟩)
    ∧ (r.blobName ≠ "" → bOk = false →
        (deleteFiles meta blobs id qv true bOk errMsg).status = 500
        ∧ (deleteFiles meta blobs id qv true bOk errMsg).body
            = RespBody.error errMsg) := by
  refine ⟨?_, ?_, ?_, ?_⟩
  · simp only [deleteFiles]
    rw [if_neg (safeVisibility_ne_empty qv), h]
    by_cases hb : r.blobName = ""
    · simp [hb]
    · cases bOk <;> simp [hb]
  · intro hb
    simp only [deleteFiles]
    rw [if_neg (safeVisibility_ne_empty qv), h]
    simp [hb]
  · intro hb hOk
    subst hOk
    simp only [deleteFiles]
    rw [if_neg (safeVisibility_ne_empty qv), h]
    simp [hb]
  · intro hb hOk
    subst hOk
    simp only [deleteFiles]
    rw [if_neg (safeVisibility_ne_empty qv), h]
    simp [hb]

/-- C1 witness: a concrete delete whose blob delete succeeds. -/
theorem deleteFiles_blob_outcome_witness :
    deleteFiles [⟨"x", "private", "T", "n", "m", 1, "bn", "u", 0, 0⟩]
        ["bn"] "x" none true true "e"
      = ⟨200, RespBody.deleted "x",
         metaDelete [⟨"x", "private", "T", "n", "m", 1, "bn", "u", 0, 0⟩] "x"
           (safeVisibility none),
         (["bn"] : List String).erase "bn", ["bn"]⟩ :=
  (deleteFiles_blob_outcome [⟨"x", "private", "T", "n", "m", 1, "bn", "u", 0, 0⟩]
    ["bn"] "x" none true "e" ⟨"x", "private", "T", "n", "m", 1, "bn", "u", 0, 0⟩
    (by decide)).2.2.1 (by decide) rfl

/-- C1 counterexample: on a delete whose metadata delete succeeds (the
metadata store is emptied) but whose blob delete throws, the response
is 500, not the claimed 200 — the blob failure is surfaced. -/
theorem delete_blob_failure_cex :
    (deleteFiles [⟨"x", "private", "T", "n.pdf", "application/pdf", 3, "bn", "u", 0, 0⟩]
        ["bn"] "x" none true false "socket hang up").status = 500
    ∧ (deleteFiles [⟨"x", "private", "T", "n.pdf", "application/pdf", 3, "bn", "u", 0, 0⟩]
        ["bn"] "x" none true false "socket hang up").meta = [] := by
  decide

end EduShare
